import Mathlib

/-!
Verification of the book_managing service: a shallow embedding of its data
model (authors, books, users), repository layer, and service functions, with
theorems settling the specification claims about validation, partial update,
bulk import, authentication, and error mapping.

Python exception semantics are made explicit: service bodies compute in
`Except PyExc`, where `PyExc.http` is a `fastapi.HTTPException` and
`PyExc.other` any other Python exception; each `try/except` block of the
source is translated as a match on that result.  Since `HTTPException` is a
subclass of `Exception`, a bare `except Exception` handler catches `.http`
errors as well.
-/

/-- Decidable equality of `Except` results, so that concrete service runs
can be checked by `decide`. -/
instance {e a : Type} [DecidableEq e] [DecidableEq a] : DecidableEq (Except e a) := fun x y =>
  match x, y with
  | .error e1, .error e2 =>
    if h : e1 = e2 then .isTrue (by rw [h]) else .isFalse (by simp [h])
  | .ok v1, .ok v2 =>
    if h : v1 = v2 then .isTrue (by rw [h]) else .isFalse (by simp [h])
  | .error _, .ok _ => .isFalse (fun h => Except.noConfusion h)
  | .ok _, .error _ => .isFalse (fun h => Except.noConfusion h)

/-- An HTTP error: `fastapi.HTTPException(status_code, detail)`. -/
structure HTTPError where
  status_code : Nat
  detail : String
deriving DecidableEq, Repr

/-- A Python exception: either an `HTTPException` or any other exception
(`IndexError`, pydantic `ValidationError`, DB `IntegrityError`, ...). -/
inductive PyExc where
  | http (e : HTTPError)
  | other (msg : String)
deriving DecidableEq, Repr

/-- A stored author row (`AuthorModel`): id, `full_name`, optional birth date
and biography.  Dates are kept as opaque strings; no claim computes on them. -/
structure AuthorRec where
  id : Nat
  full_name : String
  birth_date : Option String
  biography : Option String
deriving DecidableEq, Repr

/-- A stored book row (`BookModel`): unique title, foreign key to an author,
published year, genre. -/
structure BookRec where
  id : Nat
  title : String
  author_id : Nat
  published_year : Int
  genre : String
deriving DecidableEq, Repr

/-- A stored user row (`UserModel`). -/
structure UserRec where
  id : Nat
  username : String
  hashed_password : String
deriving DecidableEq, Repr

/-- The relational database state: the three tables. -/
structure DB where
  authors : List AuthorRec
  books : List BookRec
  users : List UserRec
deriving DecidableEq, Repr

/-- `AuthorModel.get_or_none(id=author_id)`. -/
def get_author_by_id_from_db (db : DB) (author_id : Nat) : Option AuthorRec :=
  db.authors.find? (fun a => a.id == author_id)

/-- `BookModel.get_or_none(title=title)`. -/
def get_book_by_title (db : DB) (title : String) : Option BookRec :=
  db.books.find? (fun b => b.title == title)

/-- `BookModel.get_or_none(id=book_id).prefetch_related("author")`. -/
def get_book_by_id_from_db (db : DB) (book_id : Nat) : Option BookRec :=
  db.books.find? (fun b => b.id == book_id)

/-- `BookModel.filter(**filters)`: the filter dict is modelled as the
predicate it denotes on book rows. -/
def get_books_by_filter_from_db (db : DB) (filters : BookRec → Bool) : List BookRec :=
  db.books.filter filters

/-- `UserModel.get_or_none(username=username)`. -/
def get_user_from_db (db : DB) (username : String) : Option UserRec :=
  db.users.find? (fun u => u.username == username)

/-- A fresh autoincrement id for the authors table. -/
def next_author_id (db : DB) : Nat :=
  (db.authors.map (fun a => a.id)).foldr max 0 + 1

/-- A fresh autoincrement id for the books table. -/
def next_book_id (db : DB) : Nat :=
  (db.books.map (fun b => b.id)).foldr max 0 + 1

/-- A fresh autoincrement id for the users table. -/
def next_user_id (db : DB) : Nat :=
  (db.users.map (fun u => u.id)).foldr max 0 + 1

/-- `create_author_in_db`: stores the author with
`full_name=f"{name} {surname}"` — note the SPACE separator. -/
def create_author_in_db (db : DB) (name surname : String)
    (birth_date biography : Option String) : AuthorRec × DB :=
  let a : AuthorRec :=
    { id := next_author_id db
      full_name := name ++ " " ++ surname
      birth_date := birth_date
      biography := biography }
  (a, { db with authors := db.authors ++ [a] })

/-- `create_user_in_db`: appends a new user row. -/
def create_user_in_db (db : DB) (username hashed_password : String) : UserRec × DB :=
  let u : UserRec :=
    { id := next_user_id db, username := username, hashed_password := hashed_password }
  (u, { db with users := db.users ++ [u] })

/-- `get_author_by_id` (author service).  Its `try` block has only a bare
`except Exception` handler — and `HTTPException` IS a subclass of `Exception`
in Python — so the 404 raised for a missing author is caught and re-raised
as the generic 500. -/
def get_author_by_id (db : DB) (author_id : Nat) : Except HTTPError AuthorRec :=
  let body : Except PyExc AuthorRec :=
    match get_author_by_id_from_db db author_id with
    | none => .error (.http { status_code := 404, detail := "Author not found" })
    | some a => .ok a
  match body with
  | .ok a => .ok a
  | .error _ =>
    .error { status_code := 500
             detail := "Something went wrong during author fetching!" }

/-- `get_book_by_id` (book service).  Unlike `get_author_by_id`, its `try`
block re-raises `HTTPException` unchanged before the generic handler, so the
404 for a missing book survives.  On success the source returns the pair
(book, book.author); a dangling author foreign key would surface as a
non-HTTP exception. -/
def get_book_by_id (db : DB) (book_id : Nat) : Except HTTPError (BookRec × AuthorRec) :=
  let body : Except PyExc (BookRec × AuthorRec) :=
    match get_book_by_id_from_db db book_id with
    | none => .error (.http { status_code := 404, detail := "Book not found" })
    | some b =>
      match get_author_by_id_from_db db b.author_id with
      | some a => .ok (b, a)
      | none => .error (.other "missing related author")
  match body with
  | .ok r => .ok r
  | .error (.http e) => .error e
  | .error (.other _) =>
    .error { status_code := 500
             detail := "Something went wrong during book fetching!" }

/-- `get_book_by_filters` (book service).  As in `get_author_by_id`, the only
handler is a bare `except Exception`, which also catches the 404
`HTTPException` raised when no book matches, and replaces it with the 500. -/
def get_book_by_filters (db : DB) (filters : BookRec → Bool) :
    Except HTTPError (List BookRec) :=
  let body : Except PyExc (List BookRec) :=
    let books := get_books_by_filter_from_db db filters
    if books.length > 0 then .ok books
    else .error (.http { status_code := 404, detail := "No books found" })
  match body with
  | .ok r => .ok r
  | .error _ =>
    .error { status_code := 500
             detail := "Something went wrong during book filtering!" }

/-- Python's `str.split(sep)` on a single-character separator, as a
structural recursion over the character list (`String.splitOn` does not
reduce in the kernel).  Like Python's, it never returns an empty list:
splitting a string with no separator yields the one-element list. -/
def py_split_aux (sep : Char) : List Char → List Char → List String
  | [], acc => [String.mk acc.reverse]
  | c :: cs, acc =>
    if c == sep then String.mk acc.reverse :: py_split_aux sep cs []
    else py_split_aux sep cs (c :: acc)

/-- `s.split(sep)` for a one-character separator. -/
def py_split (s : String) (sep : Char) : List String :=
  py_split_aux sep s.toList []

/-- The genre whitelist of the `BookCreate`/`BookUpdate` validators. -/
def valid_genres : List String := ["Fiction", "Non-Fiction", "Science", "History"]

/-- A validated `BookCreate` payload. -/
structure BookCreate where
  title : String
  published_year : Int
  genre : String
  author_id : Nat
deriving DecidableEq, Repr

/-- `BookCreate.validate_published_year`: rejects a year outside
[1800, current year] by raising `HTTPException(422, ...)`. -/
def BookCreate.validate_published_year (current_year : Int) (value : Int) :
    Except HTTPError Int :=
  if ¬(1800 ≤ value ∧ value ≤ current_year) then
    .error { status_code := 422
             detail := "Published year must be between 1800 and current year." }
  else .ok value

/-- `BookCreate.validate_genre`: rejects a genre outside the whitelist by
raising `HTTPException(422, ...)`. -/
def BookCreate.validate_genre (value : String) : Except HTTPError String :=
  if ¬(value ∈ valid_genres) then
    .error { status_code := 422
             detail := "Genre myst be one of those genres: Fiction, Non-Fiction, Science, History." }
  else .ok value

/-- A raw import row / request body before pydantic validation: each field is
`none` when missing from the row or not coercible to the declared type. -/
structure Row where
  title : Option String
  published_year : Option Int
  genre : Option String
  author_id : Option Nat
deriving DecidableEq, Repr

/-- The `published_year` field validator step of `BookCreate(**row)`: it runs
only when the field is present, and raises its `HTTPException` directly —
pydantic converts only `ValueError`/`AssertionError` into `ValidationError`,
so the `HTTPException` propagates. -/
def check_year_field (current_year : Int) (r : Row) : Except PyExc Unit :=
  match r.published_year with
  | some y =>
    match BookCreate.validate_published_year current_year y with
    | .error e => .error (.http e)
    | .ok _ => .ok ()
  | none => .ok ()

/-- The `genre` field validator step of `BookCreate(**row)`, as above. -/
def check_genre_field (r : Row) : Except PyExc Unit :=
  match r.genre with
  | some g =>
    match BookCreate.validate_genre g with
    | .error e => .error (.http e)
    | .ok _ => .ok ()
  | none => .ok ()

/-- `BookCreate(**row)`: field validators run in field order and raise their
`HTTPException` immediately; a missing or uncoercible required field surfaces
as a pydantic `ValidationError`, a non-HTTP exception, raised after the
per-field pass. -/
def bookCreate_of_row (current_year : Int) (r : Row) : Except PyExc BookCreate :=
  match check_year_field current_year r with
  | .error e => .error e
  | .ok _ =>
    match check_genre_field r with
    | .error e => .error e
    | .ok _ =>
      match r.title, r.published_year, r.genre, r.author_id with
      | some t, some y, some g, some a =>
        .ok { title := t, published_year := y, genre := g, author_id := a }
      | _, _, _, _ => .error (.other "ValidationError: missing or invalid field")

/-- A validated `BookUpdate` payload: every field optional. -/
structure BookUpdate where
  title : Option String
  published_year : Option Int
  genre : Option String
  author_id : Option Nat
deriving DecidableEq, Repr

/-- `BookUpdate.validate_published_year`: rejects a PRESENT year outside
[1800, current year]; `None` passes. -/
def BookUpdate.validate_published_year (current_year : Int) (value : Option Int) :
    Except HTTPError (Option Int) :=
  match value with
  | some v =>
    if ¬(1800 ≤ v ∧ v ≤ current_year) then
      .error { status_code := 422
               detail := "Published year must be between 1800 and current year." }
    else .ok value
  | none => .ok none

/-- `BookUpdate.validate_genre`: rejects a PRESENT genre outside the
whitelist; `None` passes. -/
def BookUpdate.validate_genre (value : Option String) : Except HTTPError (Option String) :=
  match value with
  | some g =>
    if ¬(g ∈ valid_genres) then
      .error { status_code := 422
               detail := "Genre myst be one of those genres: Fiction, Non-Fiction, Science, History." }
    else .ok value
  | none => .ok none

/-- `BookUpdate(...)` as built by the update endpoint: runs both field
validators (in field order), whose `HTTPException`s propagate. -/
def bookUpdate_mk (current_year : Int) (title : Option String)
    (published_year : Option Int) (genre : Option String) (author_id : Option Nat) :
    Except PyExc BookUpdate :=
  match BookUpdate.validate_published_year current_year published_year with
  | .error e => .error (.http e)
  | .ok _ =>
    match BookUpdate.validate_genre genre with
    | .error e => .error (.http e)
    | .ok _ =>
      .ok { title := title, published_year := published_year
            genre := genre, author_id := author_id }

/-- `check_book_and_author_exist`: the author must exist (else 404
"Author not found") and the title must be free IN THE DATABASE (else 400
"Book already exists"); returns the author. -/
def check_book_and_author_exist (db : DB) (book : BookCreate) : Except PyExc AuthorRec :=
  match get_author_by_id_from_db db book.author_id with
  | none => .error (.http { status_code := 404, detail := "Author not found" })
  | some author =>
    match get_book_by_title db book.title with
    | some _ => .error (.http { status_code := 400, detail := "Book already exists" })
    | none => .ok author

/-- `create_book_in_db`: inserts the row with a fresh id, referencing the
given author. -/
def create_book_in_db (db : DB) (book : BookCreate) (author : AuthorRec) : BookRec × DB :=
  let b : BookRec :=
    { id := next_book_id db, title := book.title, author_id := author.id
      published_year := book.published_year, genre := book.genre }
  (b, { db with books := db.books ++ [b] })

/-- `check_exist_book_and_create`: existence checks then insert;
`HTTPException` re-raised unchanged, anything else wrapped as 500. -/
def check_exist_book_and_create (db : DB) (book : BookCreate) :
    Except HTTPError (BookRec × DB) :=
  let body : Except PyExc (BookRec × DB) :=
    match check_book_and_author_exist db book with
    | .error e => .error e
    | .ok author => .ok (create_book_in_db db book author)
  match body with
  | .ok r => .ok r
  | .error (.http e) => .error e
  | .error (.other _) =>
    .error { status_code := 500
             detail := "Something went wrong during book creation!" }

/-- `book.save()`: an UPDATE of the row with the book's id; the UNIQUE
constraint on `title` fails when another row holds the same title. -/
def save_book (db : DB) (b : BookRec) : Except PyExc DB :=
  if db.books.any (fun b2 => b2.id != b.id && b2.title == b.title) then
    .error (.other "IntegrityError: UNIQUE constraint failed")
  else
    .ok { db with books := db.books.map (fun b2 => if b2.id == b.id then b else b2) }

/-- The `author_id` branch of `check_exist_book_and_update`: when set, the
new author must exist (else 404), and the book's author reference is
repointed to it. -/
def apply_author_update (db : DB) (book_update : BookUpdate) (b : BookRec) :
    Except PyExc BookRec :=
  match book_update.author_id with
  | none => .ok b
  | some aid =>
    match get_author_by_id_from_db db aid with
    | none => .error (.http { status_code := 404, detail := "Author not found" })
    | some author => .ok { b with author_id := author.id }

/-- `check_exist_book_and_update`: fetch by id (404 when missing), then
overwrite exactly the fields the payload sets — title, author reference
(revalidated), published year, genre, in that order — and save.
`HTTPException` re-raised unchanged, anything else wrapped as 500. -/
def check_exist_book_and_update (db : DB) (book_id : Nat) (book_update : BookUpdate) :
    Except HTTPError (BookRec × DB) :=
  let body : Except PyExc (BookRec × DB) :=
    match get_book_by_id_from_db db book_id with
    | none => .error (.http { status_code := 404, detail := "Book not found" })
    | some book0 =>
      let book1 := match book_update.title with
        | some t => { book0 with title := t }
        | none => book0
      match apply_author_update db book_update book1 with
      | .error e => .error e
      | .ok book2 =>
        let book3 := match book_update.published_year with
          | some y => { book2 with published_year := y }
          | none => book2
        let book4 := match book_update.genre with
          | some g => { book3 with genre := g }
          | none => book3
        match save_book db book4 with
        | .error e => .error e
        | .ok db2 => .ok (book4, db2)
  match body with
  | .ok r => .ok r
  | .error (.http e) => .error e
  | .error (.other _) =>
    .error { status_code := 500
             detail := "Something went wrong during book updating!" }

/-- The PUT /books/{id} endpoint body: builds the `BookUpdate` (running its
validators) and calls `check_exist_book_and_update`. -/
def update_book_endpoint (current_year : Int) (db : DB) (book_id : Nat)
    (title : Option String) (published_year : Option Int)
    (genre : Option String) (author_id : Option Nat) :
    Except PyExc (BookRec × DB) :=
  match bookUpdate_mk current_year title published_year genre author_id with
  | .error e => .error e
  | .ok u =>
    match check_exist_book_and_update db book_id u with
    | .error e => .error (.http e)
    | .ok r => .ok r

/-- An author-update payload: every field optional. -/
structure AuthorUpdate where
  name : Option String
  surname : Option String
  birth_date : Option String
  biography : Option String
deriving DecidableEq, Repr

/-- `author.save()`: an UPDATE of the row with the author's id
(`full_name` carries no unique constraint, so it always succeeds). -/
def save_author (db : DB) (a : AuthorRec) : DB :=
  { db with authors := db.authors.map (fun a2 => if a2.id == a.id then a else a2) }

/-- `check_exist_author_and_update`: fetch by id (404 when missing), then for
each set field rewrite the author.  A set `name` is spliced as
`f"{name}+{full_name.split('+')[1]}"` — the index `[1]` raises `IndexError`
when the stored `full_name` holds no `'+'`; a set `surname` is spliced as
`f"{full_name.split('+')[0]}+{surname}"` (index `[0]` always exists).
`HTTPException` re-raised unchanged, anything else wrapped as 500. -/
def check_exist_author_and_update (db : DB) (author_id : Nat) (u : AuthorUpdate) :
    Except HTTPError (AuthorRec × DB) :=
  let body : Except PyExc (AuthorRec × DB) :=
    match get_author_by_id_from_db db author_id with
    | none => .error (.http { status_code := 404, detail := "Author not found" })
    | some a0 =>
      let step1 : Except PyExc AuthorRec :=
        match u.name with
        | none => .ok a0
        | some n =>
          match (py_split a0.full_name '+').get? 1 with
          | none => .error (.other "IndexError: list index out of range")
          | some part1 => .ok { a0 with full_name := n ++ "+" ++ part1 }
      match step1 with
      | .error e => .error e
      | .ok a1 =>
        let a2 := match u.surname with
          | none => a1
          | some s => { a1 with full_name := (py_split a1.full_name '+').headD "" ++ "+" ++ s }
        let a3 := match u.birth_date with
          | some bd => { a2 with birth_date := some bd }
          | none => a2
        let a4 := match u.biography with
          | some bio => { a3 with biography := some bio }
          | none => a3
        .ok (a4, save_author db a4)
  match body with
  | .ok r => .ok r
  | .error (.http e) => .error e
  | .error (.other _) =>
    .error { status_code := 500
             detail := "Something went wrong during author updating!" }

/-- `get_user` (auth service): raises 400 "Username already registered" when
the username is taken, returns nothing otherwise. -/
def get_user_check (db : DB) (username : String) : Except PyExc Unit :=
  match get_user_from_db db username with
  | some _ => .error (.http { status_code := 400, detail := "Username already registered" })
  | none => .ok ()

/-- `check_exist_and_create_user`: duplicate check, then hash (the hash
function is an external primitive, passed as a parameter) and insert.
Returns the HTTP response together with the post-state of the database,
which is unchanged whenever an error is raised. -/
def check_exist_and_create_user (hash : String → String) (db : DB)
    (username password : String) : Except HTTPError UserRec × DB :=
  let body : Except PyExc (UserRec × DB) :=
    match get_user_check db username with
    | .error e => .error e
    | .ok _ =>
      let hashed := hash password
      .ok (create_user_in_db db username hashed)
  match body with
  | .ok (u, db2) => (.ok u, db2)
  | .error (.http e) => (.error e, db)
  | .error (.other _) =>
    (.error { status_code := 500
              detail := "Something went wrong during registration!" }, db)

/-- A `BookModel(...)` instance built during the import loop but not yet
inserted: it has no id until the bulk insert. -/
structure PendingBook where
  title : String
  author_id : Nat
  published_year : Int
  genre : String
deriving DecidableEq, Repr

/-- One iteration body of the import loop's `try` block:
`BookCreate(**book)` then `check_book_and_author_exist`, then the
`BookModel(...)` instance for the valid list. -/
def row_step (current_year : Int) (db : DB) (r : Row) : Except PyExc PendingBook :=
  match bookCreate_of_row current_year r with
  | .error e => .error e
  | .ok bc =>
    match check_book_and_author_exist db bc with
    | .error e => .error e
    | .ok author =>
      .ok { title := bc.title, author_id := author.id
            published_year := bc.published_year, genre := bc.genre }

/-- The three accumulators of `validate_and_save_books_to_db`. -/
structure ImportAcc where
  valid_books : List PendingBook
  exist_books : List Row
  not_found_authors : List Row
deriving DecidableEq, Repr

/-- The per-row loop of `validate_and_save_books_to_db`: an `HTTPException`
matching (400, "Book already exists") or (404, "Author not found") sends the
row into the corresponding report bucket; ANY OTHER `HTTPException` (such as
the 422 raised by the year/genre field validators) falls through both tests
and the row is skipped without being recorded anywhere; a non-HTTP exception
(such as pydantic's `ValidationError` for a missing field) aborts the
whole run with the 500 wrapper. -/
def import_loop (current_year : Int) (db : DB) :
    List Row → ImportAcc → Except HTTPError ImportAcc
  | [], acc => .ok acc
  | r :: rs, acc =>
    match row_step current_year db r with
    | .ok pb =>
      import_loop current_year db rs { acc with valid_books := acc.valid_books ++ [pb] }
    | .error (.http e) =>
      if e.status_code == 400 && e.detail == "Book already exists" then
        import_loop current_year db rs { acc with exist_books := acc.exist_books ++ [r] }
      else if e.status_code == 404 && e.detail == "Author not found" then
        import_loop current_year db rs
          { acc with not_found_authors := acc.not_found_authors ++ [r] }
      else
        import_loop current_year db rs acc
    | .error (.other _) =>
      .error { status_code := 500
               detail := "Something went wrong during book import" }

/-- Sequential id assignment performed by the bulk INSERT. -/
def assign_ids (start : Nat) : List PendingBook → List BookRec
  | [] => []
  | pb :: pbs =>
    { id := start, title := pb.title, author_id := pb.author_id
      published_year := pb.published_year, genre := pb.genre } :: assign_ids (start + 1) pbs

/-- Whether inserting the pending books would violate the UNIQUE constraint
on `title`: some pending title collides with a stored title or with another
pending title. -/
def bulk_titles_conflict (db : DB) : List PendingBook → Bool
  | [] => false
  | pb :: pbs =>
    (get_book_by_title db pb.title).isSome
      || pbs.any (fun q => q.title == pb.title)
      || bulk_titles_conflict db pbs

/-- `bulk_create_books_in_db`: one INSERT of all the rows, atomic; raises
`IntegrityError` when the UNIQUE title constraint is violated. -/
def bulk_create_books_in_db (db : DB) (pbs : List PendingBook) : Except PyExc DB :=
  if bulk_titles_conflict db pbs then
    .error (.other "IntegrityError: UNIQUE constraint failed")
  else .ok { db with books := db.books ++ assign_ids (next_book_id db) pbs }

/-- The return value of `validate_and_save_books_to_db`: the keys
"Count of saved books", "Books already exist", "Authors not found". -/
structure ImportReport where
  saved_count : Nat
  exist_books : List Row
  not_found_authors : List Row
deriving DecidableEq, Repr

/-- `validate_and_save_books_to_db` on the parsed rows: run the per-row
loop, then — when the valid list is non-empty — bulk insert it.  The bulk
insert sits OUTSIDE any try block, so an `IntegrityError` there propagates
unhandled out of the service (FastAPI turns it into a generic 500 response)
and no report is returned. -/
def validate_and_save_books_to_db (current_year : Int) (db : DB) (rows : List Row) :
    Except PyExc (ImportReport × DB) :=
  match import_loop current_year db rows { valid_books := [], exist_books := [], not_found_authors := [] } with
  | .error e => .error (.http e)
  | .ok acc =>
    match (if acc.valid_books.isEmpty then Except.ok db
           else bulk_create_books_in_db db acc.valid_books) with
    | .error e => .error e
    | .ok db2 =>
      .ok ({ saved_count := acc.valid_books.length
             exist_books := acc.exist_books
             not_found_authors := acc.not_found_authors }, db2)

/-- The outcome of decoding a bearer token: `jwt.decode` either raises
`JWTError` or yields a payload whose "sub" claim may be absent. -/
inductive DecodeResult where
  | jwtError
  | payload (sub : Option String)
deriving DecidableEq, Repr

/-- `get_current_user` (depends.py): a decode failure, a missing "sub", or a
falsy (empty) "sub" are all rejected with the 401 credentials exception. -/
def get_current_user (d : DecodeResult) : Except HTTPError String :=
  match d with
  | .jwtError => .error { status_code := 401, detail := "Could not validate credentials" }
  | .payload none => .error { status_code := 401, detail := "Could not validate credentials" }
  | .payload (some u) =>
    if u == "" then
      .error { status_code := 401, detail := "Could not validate credentials" }
    else .ok u

/-- A route of the catalog API: HTTP method, path, and whether its handler
declares the `Depends(get_current_user)` parameter. -/
structure CatalogEndpoint where
  method : String
  path : String
  requires_current_user : Bool
deriving DecidableEq, Repr

/-- The books router, transliterated route by route from its source: every
handler declares the current-user dependency EXCEPT `import_books`
(POST /books/import), whose signature takes only the uploaded file. -/
def books_router_endpoints : List CatalogEndpoint :=
  [ { method := "POST", path := "/books/create", requires_current_user := true }
  , { method := "POST", path := "/books/import", requires_current_user := false }
  , { method := "GET", path := "/books/all", requires_current_user := true }
  , { method := "GET", path := "/books/{book_id}", requires_current_user := true }
  , { method := "GET", path := "/books/search/", requires_current_user := true }
  , { method := "PUT", path := "/books/{book_id}", requires_current_user := true }
  , { method := "DELETE", path := "/books/{book_id}", requires_current_user := true } ]

/-- The author router, transliterated route by route: every handler declares
the current-user dependency. -/
def author_router_endpoints : List CatalogEndpoint :=
  [ { method := "POST", path := "/authors/create", requires_current_user := true }
  , { method := "GET", path := "/authors/all", requires_current_user := true }
  , { method := "GET", path := "/authors/{author_id}", requires_current_user := true }
  , { method := "PUT", path := "/authors/{author_id}", requires_current_user := true }
  , { method := "DELETE", path := "/authors/{author_id}", requires_current_user := true } ]

/-- All catalog (book and author) routes. -/
def catalog_endpoints : List CatalogEndpoint :=
  books_router_endpoints ++ author_router_endpoints

/-- FastAPI request dispatch for a catalog route: when the handler declares
the current-user dependency, the dependency runs first and an invalid token
is rejected with its 401 before the handler can touch the database;
otherwise the handler runs regardless of the token. -/
def dispatch (ep : CatalogEndpoint) (d : DecodeResult) (db : DB)
    (handler : DB → Except PyExc DB) : Except PyExc DB :=
  if ep.requires_current_user then
    match get_current_user d with
    | .error e => .error (.http e)
    | .ok _ => handler db
  else handler db

/-- A sample database: one author, no books, no users. -/
def dbOneAuthor : DB :=
  { authors := [{ id := 1, full_name := "George Orwell", birth_date := none, biography := none }]
    books := []
    users := [] }

/-- The body of the POST /books/import handler, as a database transformer:
it runs the import service and keeps the resulting state. -/
def import_handler (current_year : Int) (rows : List Row) (db : DB) : Except PyExc DB :=
  match validate_and_save_books_to_db current_year db rows with
  | .error e => .error e
  | .ok r => .ok r.2

/-- A valid import row against `dbOneAuthor`. -/
def rowNew : Row :=
  { title := some "New Book", published_year := some 1950
    genre := some "Fiction", author_id := some 1 }

/-- An import row valid against `dbOneAuthor`, used twice in one file. -/
def rowTwin : Row :=
  { title := some "Twin", published_year := some 1950
    genre := some "Fiction", author_id := some 1 }

/-- The pending book the loop builds from `rowTwin`. -/
def pbTwin : PendingBook :=
  { title := "Twin", author_id := 1, published_year := 1950, genre := "Fiction" }

/-- The empty import accumulator. -/
def accNil : ImportAcc :=
  { valid_books := [], exist_books := [], not_found_authors := [] }

/-- C3: fetching a missing book by id does return 404, but fetching a missing
author by id returns 500, not 404: the 404 raised inside `get_author_by_id`
is swallowed by its bare `except Exception` handler and wrapped as the
generic 500.  Evaluated at id 5, which matches no stored record. -/
theorem get_missing_author_returns_500_not_404 :
    get_author_by_id dbOneAuthor 5 =
      .error { status_code := 500
               detail := "Something went wrong during author fetching!" }
    ∧ get_book_by_id dbOneAuthor 5 =
      .error { status_code := 404, detail := "Book not found" } :=
  ⟨rfl, rfl⟩

/-- C5: a filtered search matching no stored book returns 500, not 404: the
404 raised inside `get_book_by_filters` is caught by its own bare
`except Exception` handler and replaced by the generic 500.  Evaluated on a
database with no books, with the all-accepting filter. -/
theorem filter_search_no_match_returns_500_not_404 :
    get_book_by_filters dbOneAuthor (fun _ => true) =
      .error { status_code := 500
               detail := "Something went wrong during book filtering!" } :=
  rfl

/-- C4: partial author update is broken for every author this application
creates.  `create_author_in_db` stores `full_name` as "name surname" (space
separator), while the name branch of `check_exist_author_and_update`
splices via `full_name.split('+')[1]`; on "George Orwell" the split yields
one element, the index raises `IndexError`, and the generic handler turns
it into a 500 — instead of overwriting only the name. -/
theorem author_name_only_update_crashes_500 :
    check_exist_author_and_update
      (create_author_in_db { authors := [], books := [], users := [] }
        "George" "Orwell" none none).2
      1
      { name := some "Eric", surname := none, birth_date := none, biography := none } =
    .error { status_code := 500
             detail := "Something went wrong during author updating!" } := by
  decide

/-- C8: a second registration with an already-taken username fails with the
duplicate-resource error 400 "Username already registered" and leaves the
user table — and the whole database — unchanged. -/
theorem duplicate_username_registration_conflict (hash : String → String) (db : DB)
    (username password : String) (w : UserRec)
    (hfound : get_user_from_db db username = some w) :
    check_exist_and_create_user hash db username password =
      (.error { status_code := 400, detail := "Username already registered" }, db) := by
  unfold check_exist_and_create_user get_user_check
  rw [hfound]

/-- Witness for C8: registering "bob" when "bob" is already stored. -/
theorem duplicate_username_registration_conflict_witness :
    check_exist_and_create_user id
      { authors := [], books := [],
        users := [{ id := 1, username := "bob", hashed_password := "h" }] }
      "bob" "pw" =
      (.error { status_code := 400, detail := "Username already registered" },
       { authors := [], books := [],
         users := [{ id := 1, username := "bob", hashed_password := "h" }] }) :=
  duplicate_username_registration_conflict id
    { authors := [], books := [],
      users := [{ id := 1, username := "bob", hashed_password := "h" }] }
    "bob" "pw" { id := 1, username := "bob", hashed_password := "h" } (by decide)

/-- A passing `published_year` field check on a present year means the year
is in [1800, current_year]. -/
lemma check_year_field_ok (cy y : Int) (r : Row) (v : Unit)
    (hy : r.published_year = some y) (h : check_year_field cy r = .ok v) :
    1800 ≤ y ∧ y ≤ cy := by
  unfold check_year_field at h
  rw [hy] at h
  unfold BookCreate.validate_published_year at h
  by_cases hc : 1800 ≤ y ∧ y ≤ cy
  · exact hc
  · simp [hc] at h

/-- A `BookCreate` that pydantic accepted has its published year in range. -/
lemma bookCreate_of_row_year_range (cy : Int) (r : Row) (bc : BookCreate)
    (h : bookCreate_of_row cy r = .ok bc) :
    1800 ≤ bc.published_year ∧ bc.published_year ≤ cy := by
  unfold bookCreate_of_row at h
  split at h
  · exact Except.noConfusion h
  rename_i v1 heq1
  split at h
  · exact Except.noConfusion h
  rename_i v2 heq2
  split at h
  · rename_i t y g a ht hy hg ha
    injection h with hbc
    subst hbc
    exact check_year_field_ok cy y r v1 hy heq1
  · exact Except.noConfusion h

/-- The `BookUpdate` year validator passes on a present year only when the
year is in range. -/
lemma bookUpdate_validate_year_ok (cy y : Int) (v : Option Int)
    (h : BookUpdate.validate_published_year cy (some y) = .ok v) :
    1800 ≤ y ∧ y ≤ cy := by
  unfold BookUpdate.validate_published_year at h
  by_cases hc : 1800 ≤ y ∧ y ≤ cy
  · exact hc
  · simp [hc] at h

/-- A successfully constructed `BookUpdate` carries the year it was given. -/
lemma bookUpdate_mk_year (cy : Int) (title : Option String) (py : Option Int)
    (genre : Option String) (aid : Option Nat) (u : BookUpdate)
    (h : bookUpdate_mk cy title py genre aid = .ok u) : u.published_year = py := by
  unfold bookUpdate_mk at h
  split at h
  · exact Except.noConfusion h
  split at h
  · exact Except.noConfusion h
  injection h with hu
  subst hu
  rfl

/-- A `BookUpdate` successfully constructed with a present year has that
year in range. -/
lemma bookUpdate_mk_ok_year_range (cy y : Int) (title : Option String)
    (genre : Option String) (aid : Option Nat) (u : BookUpdate)
    (h : bookUpdate_mk cy title (some y) genre aid = .ok u) :
    1800 ≤ y ∧ y ≤ cy := by
  unfold bookUpdate_mk at h
  split at h
  · exact Except.noConfusion h
  rename_i v heqv
  exact bookUpdate_validate_year_ok cy y v heqv

/-- A successful book update whose payload sets the year stores exactly that
year. -/
lemma update_sets_year (db : DB) (book_id : Nat) (u : BookUpdate) (y : Int)
    (b2 : BookRec) (db2 : DB) (hu : u.published_year = some y)
    (h : check_exist_book_and_update db book_id u = .ok (b2, db2)) :
    b2.published_year = y := by
  simp only [check_exist_book_and_update] at h
  split at h
  rotate_left
  · exact Except.noConfusion h
  · exact Except.noConfusion h
  rename_i rr heq
  injection h with hr
  subst hr
  split at heq
  · exact Except.noConfusion heq
  rename_i book0 hb0
  split at heq
  · exact Except.noConfusion heq
  rename_i book2 hb2
  split at heq
  · exact Except.noConfusion heq
  rename_i db0 hdb0
  injection heq with hpair
  rw [hu] at hpair
  cases hg : u.genre with
  | none =>
    rw [hg] at hpair
    have := congrArg Prod.fst hpair
    simp at this
    rw [← this]
  | some g =>
    rw [hg] at hpair
    have := congrArg Prod.fst hpair
    simp at this
    rw [← this]

/-- C9: the published-year range [1800, current year] is enforced at both
creation and update.  (1) An out-of-range year is rejected: the `BookCreate`
validator raises the 422, and the update endpoint rejects the payload with
the same 422 before touching the database.  (2) Any `BookCreate` pydantic
accepts has its year in range, so creation stores only in-range years.
(3) Any successful update whose payload sets the year stores exactly that
year, which is in range. -/
theorem published_year_range_enforced (current_year y : Int) (r : Row) (db : DB)
    (book_id : Nat) (title genre : Option String) (aid : Option Nat) :
    (¬(1800 ≤ y ∧ y ≤ current_year) →
       BookCreate.validate_published_year current_year y =
         .error { status_code := 422
                  detail := "Published year must be between 1800 and current year." }
       ∧ update_book_endpoint current_year db book_id title (some y) genre aid =
         .error (.http { status_code := 422
                         detail := "Published year must be between 1800 and current year." }))
    ∧ (∀ bc : BookCreate, bookCreate_of_row current_year r = .ok bc →
         1800 ≤ bc.published_year ∧ bc.published_year ≤ current_year)
    ∧ (∀ b2 db2,
         update_book_endpoint current_year db book_id title (some y) genre aid = .ok (b2, db2) →
         (1800 ≤ y ∧ y ≤ current_year) ∧ b2.published_year = y) := by
  refine ⟨fun h => ⟨?_, ?_⟩, fun bc hbc => bookCreate_of_row_year_range _ _ _ hbc,
          fun b2 db2 h => ?_⟩
  · unfold BookCreate.validate_published_year
    simp [h]
  · unfold update_book_endpoint bookUpdate_mk BookUpdate.validate_published_year
    simp [h]
  · unfold update_book_endpoint at h
    split at h
    · exact Except.noConfusion h
    rename_i u hu
    have hyr := bookUpdate_mk_ok_year_range current_year y title genre aid u hu
    have hy := bookUpdate_mk_year current_year title (some y) genre aid u hu
    split at h
    · exact Except.noConfusion h
    rename_i rr hcheck
    injection h with hr
    subst hr
    exact ⟨hyr, update_sets_year db book_id u y b2 db2 hy hcheck⟩

/-- Witness for C9: year 1700 is rejected by the creation validator. -/
theorem published_year_range_enforced_witness :
    BookCreate.validate_published_year 2025 1700 =
      .error { status_code := 422
               detail := "Published year must be between 1800 and current year." } :=
  ((published_year_range_enforced 2025 1700
      { title := none, published_year := none, genre := none, author_id := none }
      dbOneAuthor 1 none none none).1 (by decide)).1

/-- C7: updating an existing book with a payload that sets only `title`
succeeds and changes only the title: the stored record keeps its genre,
published year and author reference, and every other row of the book table
is untouched.  (The side condition says the new title does not collide with
a DIFFERENT row, which would trip the UNIQUE constraint at save time.) -/
theorem book_title_only_update_frame (db : DB) (book_id : Nat) (t : String) (b : BookRec)
    (hfind : get_book_by_id_from_db db book_id = some b)
    (hsave : db.books.any (fun b2 => b2.id != b.id && b2.title == t) = false) :
    check_exist_book_and_update db book_id
      { title := some t, published_year := none, genre := none, author_id := none } =
      .ok ({ b with title := t },
           { db with books := db.books.map (fun b2 =>
               if b2.id == b.id then { b with title := t } else b2) }) := by
  unfold check_exist_book_and_update apply_author_update save_book
  rw [hfind]
  simp [hsave]

/-- Witness for C7: renaming the one stored book. -/
theorem book_title_only_update_frame_witness :
    check_exist_book_and_update
      { authors := [{ id := 1, full_name := "George Orwell", birth_date := none, biography := none }]
        books := [{ id := 1, title := "1984", author_id := 1, published_year := 1949, genre := "Fiction" }]
        users := [] }
      1 { title := some "Animal Farm", published_year := none, genre := none, author_id := none } =
      .ok ({ id := 1, title := "Animal Farm", author_id := 1, published_year := 1949, genre := "Fiction" },
           { authors := [{ id := 1, full_name := "George Orwell", birth_date := none, biography := none }]
             books := [{ id := 1, title := "Animal Farm", author_id := 1, published_year := 1949, genre := "Fiction" }]
             users := [] }) := by
  have h := book_title_only_update_frame
    { authors := [{ id := 1, full_name := "George Orwell", birth_date := none, biography := none }]
      books := [{ id := 1, title := "1984", author_id := 1, published_year := 1949, genre := "Fiction" }]
      users := [] }
    1 "Animal Farm"
    { id := 1, title := "1984", author_id := 1, published_year := 1949, genre := "Fiction" }
    (by decide) (by decide)
  simpa using h

/-- A row the loop accepted has a title that is still free in the database:
`check_book_and_author_exist` checked exactly that. -/
lemma row_step_ok_fresh (cy : Int) (db : DB) (r : Row) (pb : PendingBook)
    (h : row_step cy db r = .ok pb) : get_book_by_title db pb.title = none := by
  unfold row_step at h
  split at h
  · exact Except.noConfusion h
  rename_i bc hbc
  split at h
  · exact Except.noConfusion h
  rename_i author hauthor
  injection h with hpb
  subst hpb
  unfold check_book_and_author_exist at hauthor
  split at hauthor
  · exact Except.noConfusion hauthor
  rename_i a ha
  split at hauthor
  · exact Except.noConfusion hauthor
  rename_i b hb
  simpa using hb

/-- C1 counterexample: a parsed row whose genre fails the whitelist (all
fields present, author existing, year in range) does NOT abort the import
with a 500-style error — the 422 `HTTPException` raised by the genre
validator is caught by the loop's `except HTTPException` branch, matches
neither report bucket, and the row is skipped silently: the import returns
a normal report with zero saved books, empty buckets and an unchanged
database. -/
theorem import_invalid_genre_row_not_aborted :
    validate_and_save_books_to_db 2025 dbOneAuthor
      [{ title := some "Animal Farm", published_year := some 1945
         genre := some "Poetry", author_id := some 1 }] =
      .ok ({ saved_count := 0, exist_books := [], not_found_authors := [] }, dbOneAuthor) := by
  decide

/-- C1 (amended): the per-row failure policy of the import loop.  A row
whose processing raises (404, "Author not found") goes to the authors
bucket; (400, "Book already exists") goes to the exists bucket; a row
failing the year-range or genre-whitelist validator raises a 422
`HTTPException` that matches neither bucket and is skipped SILENTLY (no
bucket, no abort); only a non-HTTP exception — e.g. pydantic's
`ValidationError` for a missing required field — aborts the whole import
with the 500 error. -/
theorem import_row_failure_policy (cy : Int) (db : DB) (r : Row) (rs : List Row)
    (acc : ImportAcc) :
    (row_step cy db r = .error (.http { status_code := 404, detail := "Author not found" }) →
       import_loop cy db (r :: rs) acc =
         import_loop cy db rs { acc with not_found_authors := acc.not_found_authors ++ [r] })
    ∧ (row_step cy db r = .error (.http { status_code := 400, detail := "Book already exists" }) →
       import_loop cy db (r :: rs) acc =
         import_loop cy db rs { acc with exist_books := acc.exist_books ++ [r] })
    ∧ (∀ y : Int, r.published_year = some y → ¬(1800 ≤ y ∧ y ≤ cy) →
       import_loop cy db (r :: rs) acc = import_loop cy db rs acc)
    ∧ (∀ g : String, r.genre = some g → ¬(g ∈ valid_genres) → check_year_field cy r = .ok () →
       import_loop cy db (r :: rs) acc = import_loop cy db rs acc)
    ∧ (∀ m : String, row_step cy db r = .error (.other m) →
       import_loop cy db (r :: rs) acc =
         .error { status_code := 500, detail := "Something went wrong during book import" }) := by
  refine ⟨fun h => ?_, fun h => ?_, fun y hy hout => ?_, fun g hg hout hyear => ?_,
          fun m h => ?_⟩
  · simp only [import_loop, h]
    rw [if_neg (by decide), if_pos (by decide)]
  · simp only [import_loop, h]
    rw [if_pos (by decide)]
  · have hr : row_step cy db r =
        .error (.http { status_code := 422
                        detail := "Published year must be between 1800 and current year." }) := by
      unfold row_step bookCreate_of_row check_year_field
      rw [hy]
      unfold BookCreate.validate_published_year
      simp [hout]
    simp only [import_loop, hr]
    rw [if_neg (by decide), if_neg (by decide)]
  · have hr : row_step cy db r =
        .error (.http { status_code := 422
                        detail := "Genre myst be one of those genres: Fiction, Non-Fiction, Science, History." }) := by
      unfold row_step bookCreate_of_row
      rw [hyear]
      unfold check_genre_field
      rw [hg]
      unfold BookCreate.validate_genre
      simp [hout]
    simp only [import_loop, hr]
    rw [if_neg (by decide), if_neg (by decide)]
  · simp only [import_loop, h]

/-- Witness for C1 (amended): a row with year 1700 (all fields present) is
silently skipped by the loop. -/
theorem import_row_failure_policy_witness :
    import_loop 2025 dbOneAuthor
      [{ title := some "X", published_year := some 1700
         genre := some "Fiction", author_id := some 1 }] accNil =
      import_loop 2025 dbOneAuthor [] accNil :=
  (import_row_failure_policy 2025 dbOneAuthor
      { title := some "X", published_year := some 1700
        genre := some "Fiction", author_id := some 1 } [] accNil).2.2.1
    1700 rfl (by decide)

/-- C2: an import whose parsed rows are one valid row, one row rejected as
"Book already exists", and one rejected as "Author not found" returns the
report {saved: 1, already exist: [second row], authors not found: [third
row]} and inserts exactly the one valid row into the book table. -/
theorem import_mixed_rows_report (cy : Int) (db : DB) (r1 r2 r3 : Row) (pb : PendingBook)
    (h1 : row_step cy db r1 = .ok pb)
    (h2 : row_step cy db r2 = .error (.http { status_code := 400, detail := "Book already exists" }))
    (h3 : row_step cy db r3 = .error (.http { status_code := 404, detail := "Author not found" })) :
    validate_and_save_books_to_db cy db [r1, r2, r3] =
      .ok ({ saved_count := 1, exist_books := [r2], not_found_authors := [r3] },
           { db with books := db.books ++
               [{ id := next_book_id db, title := pb.title, author_id := pb.author_id
                  published_year := pb.published_year, genre := pb.genre }] }) := by
  have hfresh := row_step_ok_fresh cy db r1 pb h1
  unfold validate_and_save_books_to_db
  simp only [import_loop, h1, h2, h3]
  rw [if_pos (by decide)]
  rw [if_neg (by decide), if_pos (by decide)]
  simp [bulk_create_books_in_db, bulk_titles_conflict, hfresh, assign_ids]

/-- Witness for C2: against a database holding author 1 and the book
"Existing", the rows ("Fresh", dup "Existing", unknown author 2) yield the
1/1/1 report and insert only "Fresh". -/
theorem import_mixed_rows_report_witness :
    validate_and_save_books_to_db 2025
      { authors := [{ id := 1, full_name := "George Orwell", birth_date := none, biography := none }]
        books := [{ id := 1, title := "Existing", author_id := 1, published_year := 1950, genre := "Fiction" }]
        users := [] }
      [{ title := some "Fresh", published_year := some 1950, genre := some "Fiction", author_id := some 1 },
       { title := some "Existing", published_year := some 1950, genre := some "Fiction", author_id := some 1 },
       { title := some "Ghost", published_year := some 1950, genre := some "Fiction", author_id := some 2 }] =
      .ok ({ saved_count := 1
             exist_books := [{ title := some "Existing", published_year := some 1950, genre := some "Fiction", author_id := some 1 }]
             not_found_authors := [{ title := some "Ghost", published_year := some 1950, genre := some "Fiction", author_id := some 2 }] },
           { authors := [{ id := 1, full_name := "George Orwell", birth_date := none, biography := none }]
             books := [{ id := 1, title := "Existing", author_id := 1, published_year := 1950, genre := "Fiction" },
                       { id := 2, title := "Fresh", author_id := 1, published_year := 1950, genre := "Fiction" }]
             users := [] }) := by
  have h := import_mixed_rows_report 2025
    { authors := [{ id := 1, full_name := "George Orwell", birth_date := none, biography := none }]
      books := [{ id := 1, title := "Existing", author_id := 1, published_year := 1950, genre := "Fiction" }]
      users := [] }
    { title := some "Fresh", published_year := some 1950, genre := some "Fiction", author_id := some 1 }
    { title := some "Existing", published_year := some 1950, genre := some "Fiction", author_id := some 1 }
    { title := some "Ghost", published_year := some 1950, genre := some "Fiction", author_id := some 2 }
    { title := "Fresh", author_id := 1, published_year := 1950, genre := "Fiction" }
    (by decide) (by decide) (by decide)
  simpa using h

/-- C10 counterexample: two otherwise-valid rows sharing the fresh title
"Twin" are NOT counted as saved — the import raises an unhandled
`IntegrityError` at the bulk insert (the UNIQUE title constraint), so no
report with a saved count is ever returned. -/
theorem import_same_title_twice_not_saved :
    validate_and_save_books_to_db 2025 dbOneAuthor [rowTwin, rowTwin] =
      .error (.other "IntegrityError: UNIQUE constraint failed") := by
  decide

/-- C10 (amended): the loop's duplicate-title check consults only the
DATABASE, so two rows sharing a title that is not yet stored BOTH pass
validation and are both placed in the valid list; the import then fails at
the final bulk insert with an unhandled `IntegrityError` (UNIQUE title)
instead of reporting them as saved. -/
theorem import_duplicate_titles_within_file (cy : Int) (db : DB) (r1 r2 : Row)
    (pb1 pb2 : PendingBook)
    (h1 : row_step cy db r1 = .ok pb1)
    (h2 : row_step cy db r2 = .ok pb2)
    (hshare : pb1.title = pb2.title) :
    import_loop cy db [r1, r2] accNil =
      .ok { valid_books := [pb1, pb2], exist_books := [], not_found_authors := [] }
    ∧ validate_and_save_books_to_db cy db [r1, r2] =
      .error (.other "IntegrityError: UNIQUE constraint failed") := by
  constructor
  · simp [import_loop, accNil, h1, h2]
  · unfold validate_and_save_books_to_db
    simp only [import_loop, h1, h2]
    simp [bulk_create_books_in_db, bulk_titles_conflict, hshare]

/-- Witness for C10 (amended): the concrete duplicate pair `rowTwin`. -/
theorem import_duplicate_titles_within_file_witness :
    import_loop 2025 dbOneAuthor [rowTwin, rowTwin] accNil =
      .ok { valid_books := [pbTwin, pbTwin], exist_books := [], not_found_authors := [] }
    ∧ validate_and_save_books_to_db 2025 dbOneAuthor [rowTwin, rowTwin] =
      .error (.other "IntegrityError: UNIQUE constraint failed") :=
  import_duplicate_titles_within_file 2025 dbOneAuthor rowTwin rowTwin pbTwin pbTwin
    (by decide) (by decide) rfl

/-- C6 counterexample: the POST /books/import route declares NO current-user
dependency, and a request with an invalid bearer token is not rejected: it
runs the import and changes the catalog (here inserting "New Book"). -/
theorem import_endpoint_unauthenticated_writes :
    ({ method := "POST", path := "/books/import", requires_current_user := false } : CatalogEndpoint)
      ∈ books_router_endpoints
    ∧ dispatch { method := "POST", path := "/books/import", requires_current_user := false }
        .jwtError dbOneAuthor (import_handler 2025 [rowNew]) =
      .ok { authors := [{ id := 1, full_name := "George Orwell", birth_date := none, biography := none }]
            books := [{ id := 1, title := "New Book", author_id := 1, published_year := 1950, genre := "Fiction" }]
            users := [] } := by
  constructor
  · decide
  · decide

/-- C6 (amended): every catalog route EXCEPT POST /books/import declares the
current-user dependency, and on any such route a request whose token fails
`get_current_user` is rejected with that 401 before the handler can touch
the database; decoding an invalid token yields the 401 credentials error. -/
theorem catalog_auth_policy (ep : CatalogEndpoint) (d : DecodeResult) (db : DB)
    (handler : DB → Except PyExc DB) (e : HTTPError) :
    (ep ∈ catalog_endpoints → ep.path ≠ "/books/import" → ep.requires_current_user = true)
    ∧ (ep.requires_current_user = true → get_current_user d = .error e →
       dispatch ep d db handler = .error (.http e))
    ∧ get_current_user .jwtError =
        .error { status_code := 401, detail := "Could not validate credentials" } := by
  refine ⟨fun hmem hne => ?_, fun hreq herr => ?_, rfl⟩
  · simp [catalog_endpoints, books_router_endpoints, author_router_endpoints] at hmem
    rcases hmem with rfl | rfl | rfl | rfl | rfl | rfl | rfl | rfl | rfl | rfl | rfl | rfl <;>
      simp_all
  · unfold dispatch
    rw [hreq]
    simp [herr]

/-- Witness for C6 (amended): POST /books/create with an undecodable token
is rejected with the 401, the handler never running. -/
theorem catalog_auth_policy_witness :
    dispatch { method := "POST", path := "/books/create", requires_current_user := true }
      .jwtError dbOneAuthor (fun db2 => .ok db2) =
      .error (.http { status_code := 401, detail := "Could not validate credentials" }) :=
  (catalog_auth_policy
      { method := "POST", path := "/books/create", requires_current_user := true }
      .jwtError dbOneAuthor (fun db2 => .ok db2)
      { status_code := 401, detail := "Could not validate credentials" }).2.1 rfl rfl
